import Mathlib

/-!
Verification of `cmd/doppler-api/main.go` from pjkaufman/doppler-api.

The Go program is embedded shallowly:

* `kafkaParse` is translated directly from the source, over the result of
  Go's `url.Parse` (modelled as `Except String GoURL`, keeping only the
  `Host` and `Path` fields the function reads).  Go's slice expression
  `u.Path[1:]`, which panics when `len(u.Path) < 1`, is modelled by the
  fallible `goTail1`; a runtime panic is the distinguished outcome
  `KafkaParseOutcome.sliceOutOfRange`.
* `createConsumer` is translated over abstract outcomes for the two
  sarama calls, recording the broker list given to `sarama.NewConsumer`
  and every `ConsumePartition` request issued.
* `main` is embedded as a deterministic trace of observable actions
  (`mainTrace`), parameterized by the outcomes of the external calls
  (couchbase connect, sarama, influx client construction, HTTP server
  shutdown).  A Go `panic` truncates the trace, mirroring process abort.
-/

/-- The two fields of Go's `url.URL` that `kafkaParse` reads. -/
structure GoURL where
  host : String
  path : String
deriving DecidableEq, Repr

/-- Go's slice expression `s[1:]`: defined when `1 ≤ len(s)`, otherwise a
runtime panic (modelled as `none`). -/
def goTail1 (s : String) : Option String :=
  if 1 ≤ s.length then some (s.drop 1) else none

/-- Result of the Go function `kafkaParse`: either the `(address, topic, err)`
triple it returns, or a runtime panic from an out-of-range slice. -/
inductive KafkaParseOutcome where
  | result (address : String) (topic : String) (error : Option String)
  | sliceOutOfRange
deriving DecidableEq, Repr

/-- Error message of a `kafkaParse` outcome (`none` for nil error). -/
def KafkaParseOutcome.errMsg : KafkaParseOutcome → Option String
  | .result _ _ e => e
  | .sliceOutOfRange => none

/-- Address component of a `kafkaParse` outcome. -/
def KafkaParseOutcome.addressOf : KafkaParseOutcome → String
  | .result a _ _ => a
  | .sliceOutOfRange => ""

/-- Topic component of a `kafkaParse` outcome. -/
def KafkaParseOutcome.topicOf : KafkaParseOutcome → String
  | .result _ t _ => t
  | .sliceOutOfRange => ""

/-- Error text of `main.go` line 151. -/
def kafkaAddressErr : String :=
  "Kafka address is not specified, verify that your environment variables are correct"

/-- Error text of `main.go` line 156. -/
def kafkaTopicErr : String :=
  "Kafka topic is not specified, verify that your environment variables are correct"

/-- Translation of `kafkaParse` (`main.go` lines 145-160) over the result of
`url.Parse(conn)`.  Mirrors the source exactly: a parse error is returned
first; then an empty host is rejected; then an empty or `"/"` path is
rejected; otherwise the topic is `u.Path[1:]`. -/
def kafkaParse (parsed : Except String GoURL) : KafkaParseOutcome :=
  match parsed with
  | .error e => .result "" "" (some e)
  | .ok u =>
    if u.host = "" then
      .result "" "" (some kafkaAddressErr)
    else
      let address := u.host
      if u.path = "" ∨ u.path = "/" then
        .result "" "" (some kafkaTopicErr)
      else
        match goTail1 u.path with
        | none => .sliceOutOfRange
        | some topic => .result address topic none

/-- Property of Go's `url.Parse` output (RFC 3986 §3): whenever the parsed
URL has a non-empty host (an authority component), its path is either empty
or begins with the character `/`.  `kafkaParse`'s caller obtains its argument
from `url.Parse`, so only results satisfying this reach the function. -/
def GoURLFromParse (parsed : Except String GoURL) : Prop :=
  match parsed with
  | .error _ => True
  | .ok u => u.host ≠ "" → u.path = "" ∨ u.path.data.head? = some '/'

/-- Helper: a non-empty string has length at least one. -/
theorem one_le_length_of_ne_empty (s : String) (h : s ≠ "") : 1 ≤ s.length := by
  cases s with
  | mk l =>
    cases l with
    | nil => exact absurd rfl h
    | cons c cs => simp [String.length]

/-- Helper: dropping the leading `/` of a string that starts with `/` and is
not exactly `"/"` leaves a non-empty string. -/
theorem drop_one_ne_empty (s : String) (h1 : s.data.head? = some '/')
    (h2 : s ≠ "/") : s.drop 1 ≠ "" := by
  cases s with
  | mk l =>
    match l, h1 with
    | c :: rest, h1 =>
      have hc : c = '/' := by simpa using h1
      subst hc
      cases rest with
      | nil => exact absurd rfl h2
      | cons d ds =>
        intro hcon
        have hdata := congrArg String.data hcon
        rw [String.data_drop] at hdata
        simp at hdata

/-- Helper: the success branch of `kafkaParse` (shared by several proofs). -/
theorem kafkaParse_success_aux (u : GoURL)
    (hh : u.host ≠ "") (hp : u.path ≠ "") (hs : u.path ≠ "/") :
    kafkaParse (.ok u) = .result u.host (u.path.drop 1) none := by
  have hlen : 1 ≤ u.path.length := one_le_length_of_ne_empty u.path hp
  simp [kafkaParse, goTail1, hh, hp, hs, hlen]

/-- Helper: `kafkaParse` always yields an `(address, topic, error)` triple. -/
theorem kafkaParse_total_aux (parsed : Except String GoURL) :
    ∃ a t e, kafkaParse parsed = .result a t e := by
  match parsed with
  | .error m => exact ⟨"", "", some m, rfl⟩
  | .ok u =>
    by_cases hh : u.host = ""
    · exact ⟨"", "", some kafkaAddressErr, by simp [kafkaParse, hh]⟩
    · by_cases hp : u.path = "" ∨ u.path = "/"
      · exact ⟨"", "", some kafkaTopicErr, by simp [kafkaParse, hh, hp]⟩
      · push_neg at hp
        exact ⟨u.host, u.path.drop 1, none, kafkaParse_success_aux u hh hp.1 hp.2⟩

/-- C4: for every parsed URL with a non-empty host and a path that is neither
empty nor `"/"`, `kafkaParse` returns the host as the broker address and the
path with its first character removed as the topic, with nil error. -/
theorem kafkaParse_success_shape (u : GoURL)
    (hh : u.host ≠ "") (hp : u.path ≠ "") (hs : u.path ≠ "/") :
    kafkaParse (.ok u) = .result u.host (u.path.drop 1) none :=
  kafkaParse_success_aux u hh hp hs

/-- Witness for C4 at the concrete descriptor `kafka://localhost:9092/events`. -/
theorem kafkaParse_success_shape_witness :
    kafkaParse (.ok ⟨"localhost:9092", "/events"⟩) =
      .result "localhost:9092" "events" none :=
  kafkaParse_success_shape ⟨"localhost:9092", "/events"⟩
    (by decide) (by decide) (by decide)

/-- C5: `kafkaParse` yields a non-nil error exactly when the input failed to
parse, or the host is empty, or the path is empty or `"/"`; and in every such
error case both returned strings are empty. -/
theorem kafkaParse_error_iff (parsed : Except String GoURL) :
    ∃ a t e, kafkaParse parsed = .result a t e ∧
      (e.isSome = true ↔
        (∃ m, parsed = .error m) ∨
        (∃ u, parsed = .ok u ∧ (u.host = "" ∨ u.path = "" ∨ u.path = "/"))) ∧
      (e.isSome = true → a = "" ∧ t = "") := by
  match parsed with
  | .error m =>
    exact ⟨"", "", some m, by simp [kafkaParse]⟩
  | .ok u =>
    by_cases hh : u.host = ""
    · refine ⟨"", "", some kafkaAddressErr, by simp [kafkaParse, hh], ?_, by simp⟩
      simp [hh]
    · by_cases hp : u.path = "" ∨ u.path = "/"
      · refine ⟨"", "", some kafkaTopicErr, by simp [kafkaParse, hh, hp], ?_, by simp⟩
        simp [hh, hp]
      · push_neg at hp
        refine ⟨u.host, u.path.drop 1, none, ?_, ?_, by simp⟩
        · exact kafkaParse_success_aux u hh hp.1 hp.2
        · simp [hh, hp.1, hp.2]

/-- C9: `kafkaParse` is total — the slice `u.Path[1:]` is guarded by the
emptiness checks, so no parse result can make it read out of range; every
input yields an `(address, topic, error)` triple. -/
theorem kafkaParse_never_out_of_range (parsed : Except String GoURL) :
    kafkaParse parsed ≠ .sliceOutOfRange := by
  match parsed with
  | .error m => simp [kafkaParse]
  | .ok u =>
    by_cases hh : u.host = ""
    · simp [kafkaParse, hh]
    · by_cases hp : u.path = "" ∨ u.path = "/"
      · simp [kafkaParse, hh, hp]
      · push_neg at hp
        rw [kafkaParse_success_aux u hh hp.1 hp.2]
        intro hcon
        cases hcon

/-- Witness for C9 at a concrete input. -/
theorem kafkaParse_never_out_of_range_witness :
    kafkaParse (.ok ⟨"localhost:9092", "/"⟩) ≠ .sliceOutOfRange :=
  kafkaParse_never_out_of_range (.ok ⟨"localhost:9092", "/"⟩)

/-- C8: whenever `kafkaParse` returns a nil error on a parse result actually
producible by `url.Parse` (path empty or starting with `/` when a host is
present), both the returned address and topic are non-empty. -/
theorem kafkaParse_ok_nonempty (parsed : Except String GoURL) (a t : String)
    (hwf : GoURLFromParse parsed)
    (h : kafkaParse parsed = .result a t none) :
    a ≠ "" ∧ t ≠ "" := by
  match parsed with
  | .error m => simp [kafkaParse] at h
  | .ok u =>
    by_cases hh : u.host = ""
    · simp [kafkaParse, hh, kafkaAddressErr] at h
    · by_cases hp : u.path = "" ∨ u.path = "/"
      · simp [kafkaParse, hh, hp, kafkaTopicErr] at h
      · push_neg at hp
        have hstarts : u.path.data.head? = some '/' := by
          rcases hwf hh with h0 | h0
          · exact absurd h0 hp.1
          · exact h0
        rw [kafkaParse_success_aux u hh hp.1 hp.2] at h
        injection h with ha ht he
        constructor
        · rw [← ha]; exact hh
        · rw [← ht]; exact drop_one_ne_empty u.path hstarts hp.2

/-- Witness for C8 at the concrete descriptor `kafka://localhost:9092/events`. -/
theorem kafkaParse_ok_nonempty_witness :
    ("localhost:9092" : String) ≠ "" ∧ ("events" : String) ≠ "" :=
  kafkaParse_ok_nonempty (.ok ⟨"localhost:9092", "/events"⟩)
    "localhost:9092" "events" (by intro h; right; rfl) (by decide)

/-- `sarama.OffsetNewest` (the sarama constant is `-1`). -/
def offsetNewest : Int := -1

/-- One `ConsumePartition(topic, partition, offset)` request issued to the
sarama consumer. -/
structure ConsumeRequest where
  topic : String
  partition : Int
  offset : Int
deriving DecidableEq, Repr

/-- Observable result of `createConsumer`: the error or the (abstract)
partition consumer it returns, the broker list passed to
`sarama.NewConsumer`, and every `ConsumePartition` request issued. -/
structure CreateConsumerResult where
  consumer : Except String Unit
  brokers : List String
  requests : List ConsumeRequest
deriving Repr

/-- Translation of `createConsumer` (`main.go` lines 164-183).  The two
fallible sarama calls are abstracted by their outcomes `newConsumerErr`
(for `sarama.NewConsumer`) and `partitionErr` (for
`master.ConsumePartition`). -/
def createConsumer (kafkaCon kafkaTopic : String)
    (newConsumerErr partitionErr : Option String) : CreateConsumerResult :=
  let brokers := [kafkaCon]
  match newConsumerErr with
  | some e => ⟨.error e, brokers, []⟩
  | none =>
    let req : ConsumeRequest := ⟨kafkaTopic, 0, offsetNewest⟩
    match partitionErr with
    | some e => ⟨.error e, brokers, [req]⟩
    | none => ⟨.ok (), brokers, [req]⟩

/-- C3: whenever `createConsumer` succeeds it has issued exactly one
`ConsumePartition` request — on partition `0` of the topic from the
connection descriptor, at `sarama.OffsetNewest` (which is `-1`, the newest
available offset) — and the broker list is the single descriptor address. -/
theorem createConsumer_single_partition_newest
    (kafkaCon kafkaTopic : String) (newConsumerErr partitionErr : Option String)
    (h : (createConsumer kafkaCon kafkaTopic newConsumerErr partitionErr).consumer
          = .ok ()) :
    (createConsumer kafkaCon kafkaTopic newConsumerErr partitionErr).requests
        = [⟨kafkaTopic, 0, offsetNewest⟩] ∧
    (createConsumer kafkaCon kafkaTopic newConsumerErr partitionErr).brokers
        = [kafkaCon] ∧
    offsetNewest = -1 := by
  match newConsumerErr with
  | some e => simp [createConsumer] at h
  | none =>
    match partitionErr with
    | some e => simp [createConsumer] at h
    | none => exact ⟨rfl, rfl, rfl⟩

/-- Witness for C3 at a concrete descriptor with both sarama calls
succeeding. -/
theorem createConsumer_single_partition_newest_witness :
    (createConsumer "localhost:9092" "events" none none).requests
        = [⟨"events", 0, offsetNewest⟩] ∧
    (createConsumer "localhost:9092" "events" none none).brokers
        = ["localhost:9092"] ∧
    offsetNewest = -1 :=
  createConsumer_single_partition_newest "localhost:9092" "events" none none rfl

/-- Operating-system signals as seen by the process (`os.Interrupt`,
`syscall.SIGTERM`, or any other signal). -/
inductive GoSignal where
  | interrupt
  | sigterm
  | other (n : Nat)
deriving DecidableEq, Repr

/-- The signals registered by `signal.Notify(quit, os.Interrupt,
syscall.SIGTERM)` (`main.go` line 78): only these are forwarded to the
`quit` channel. -/
def notifiedSignals : List GoSignal := [.interrupt, .sigterm]

/-- The goroutine of `main.go` lines 84-89 receives from `quit` and calls
`cancel()`: a delivered signal cancels the process context exactly when it
is one of the notified signals. -/
def signalCancels (s : GoSignal) : Bool := notifiedSignals.contains s

/-- The HTTP listen address (`main.go` line 23). -/
def addr : String := ":8000"

/-- `maxBatchSize` (`main.go` line 71). -/
def maxBatchSize : Nat := 100

/-- `minBatchSize` (`main.go` line 72). -/
def minBatchSize : Nat := 1

/-- `batchInterval` in milliseconds (`main.go` line 73). -/
def batchInterval : Nat := 2000

/-- `truncateSize` (`main.go` line 74). -/
def truncateSize : Nat := 1

/-- The grace period of the shutdown context, in seconds
(`context.WithTimeout(context.Background(), 5*time.Second)`,
`main.go` line 125). -/
def shutdownGraceSeconds : Nat := 5

/-- Observable actions of `main`, in program order. -/
inductive MainAction where
  | logMsg (s : String)
  | panicAction (s : String)
  | connectCouchbase
  | newHTTPInfluxClient
  | newConnectionManager (maxB minB interval trunc : Nat)
  | newInfluxServiceAction (trunc : Nat)
  | registerHandler (path : String)
  | startConsuming
  | listen (address : String)
  | serverShutdown (graceSeconds : Nat)
  | closeBucket
  | closeConsumer
  | closeInflux
  | cancelServerCtx
deriving DecidableEq, Repr

/-- Outcomes of the external calls `main` makes, abstracted: the parse of
`KAFKA_CONN`, `cbConn.ConnectToCB`, the two sarama calls inside
`createConsumer`, `influx.NewHTTPClient`, and `server.Shutdown`. -/
structure MainEnv where
  kafkaURLParse : Except String GoURL
  cbConnectErr : Option String
  newConsumerErr : Option String
  partitionErr : Option String
  influxClientErr : Option String
  serverShutdownErr : Option String
deriving Repr

/-- Actions of `main.go` lines 92-119: construct the connection manager and
influx service, register the two handlers, start the consumer goroutine,
and start listening. -/
def servingActions : List MainAction :=
  [.newConnectionManager maxBatchSize minBatchSize batchInterval truncateSize,
   .logMsg "Websockets Available",
   .newInfluxServiceAction truncateSize,
   .logMsg "InfluxDB Available",
   .registerHandler "/receive/ws",
   .registerHandler "/receive/ajax",
   .startConsuming,
   .logMsg "Consuming Started",
   .listen addr]

/-- Actions of `main.go` lines 121-141, run after the context is cancelled:
shut the server down under the 5-second grace context, log a shutdown error
if any, then (in the deferred function) close the couchbase bucket, the
partition consumer and the influx client, and cancel the server context. -/
def shutdownSeq (shutdownErr : Option String) : List MainAction :=
  [.serverShutdown shutdownGraceSeconds] ++
  (match shutdownErr with
   | some e => [.logMsg ("HTTP server Shutdown: " ++ e)]
   | none => []) ++
  [.logMsg "Server Shutdown",
   .closeBucket, .closeConsumer, .closeInflux,
   .logMsg "Internal Services Closed",
   .cancelServerCtx,
   .logMsg "Service Closed"]

/-- The trace of `main` (`main.go` lines 26-142) under the external outcomes
`env`.  Mirrors the source statement by statement; a Go `panic` ends the
trace (the process aborts). -/
def mainTrace (env : MainEnv) : List MainAction :=
  match kafkaParse env.kafkaURLParse with
  | .sliceOutOfRange => [.panicAction "runtime error: slice bounds out of range"]
  | .result kafkaCon kafkaTopic kperr =>
    (match kperr with
     | some e => [.logMsg ("kafka parse error: " ++ e)]
     | none => []) ++
    [.connectCouchbase] ++
    (match env.cbConnectErr with
     | some e => [.panicAction ("error connecting to couchbase: " ++ e)]
     | none =>
       [.logMsg "Connected to Couchbase"] ++
       (match (createConsumer kafkaCon kafkaTopic
                 env.newConsumerErr env.partitionErr).consumer with
        | .error e => [.logMsg e]
        | .ok _ => []) ++
       [.logMsg "Connected to Kafka", .newHTTPInfluxClient] ++
       (match env.influxClientErr with
        | some e => [.panicAction ("error connecting to influx: " ++ e)]
        | none =>
          [.logMsg "Connected to InfluxDB"] ++ servingActions ++
          shutdownSeq env.serverShutdownErr))

/-- The startup portion of the trace on the non-aborting path (everything
`main` does before blocking on `ctx.Done()`). -/
def startupTrace (env : MainEnv) : List MainAction :=
  match kafkaParse env.kafkaURLParse with
  | .sliceOutOfRange => [.panicAction "runtime error: slice bounds out of range"]
  | .result kafkaCon kafkaTopic kperr =>
    (match kperr with
     | some e => [.logMsg ("kafka parse error: " ++ e)]
     | none => []) ++
    [.connectCouchbase, .logMsg "Connected to Couchbase"] ++
    (match (createConsumer kafkaCon kafkaTopic
              env.newConsumerErr env.partitionErr).consumer with
     | .error e => [.logMsg e]
     | .ok _ => []) ++
    [.logMsg "Connected to Kafka", .newHTTPInfluxClient,
     .logMsg "Connected to InfluxDB"] ++
    servingActions

/-- Does the trace contain a Go `panic` (process abort)? -/
def hasAbort : List MainAction → Bool
  | [] => false
  | .panicAction _ :: _ => true
  | _ :: rest => hasAbort rest

/-- Does the trace register a handler, start consuming, or listen? -/
def mentionsServing : List MainAction → Bool
  | [] => false
  | .registerHandler _ :: _ => true
  | .startConsuming :: _ => true
  | .listen _ :: _ => true
  | _ :: rest => mentionsServing rest

/-- Number of couchbase connection attempts in a trace. -/
def countConnectCB : List MainAction → Nat
  | [] => 0
  | .connectCouchbase :: rest => countConnectCB rest + 1
  | _ :: rest => countConnectCB rest

/-- Number of connection-manager constructions in a trace. -/
def countNewCM : List MainAction → Nat
  | [] => 0
  | .newConnectionManager _ _ _ _ :: rest => countNewCM rest + 1
  | _ :: rest => countNewCM rest

/-- Does the trace shut the server down, or close the bucket, the consumer,
or the influx client? -/
def mentionsShutdownStep : List MainAction → Bool
  | [] => false
  | .serverShutdown _ :: _ => true
  | .closeBucket :: _ => true
  | .closeConsumer :: _ => true
  | .closeInflux :: _ => true
  | _ :: rest => mentionsShutdownStep rest

/-- Helper: on the non-aborting path the trace of `main` is the startup
actions followed by the shutdown sequence. -/
theorem mainTrace_split (env : MainEnv)
    (h1 : env.cbConnectErr = none) (h2 : env.influxClientErr = none) :
    mainTrace env = startupTrace env ++ shutdownSeq env.serverShutdownErr := by
  obtain ⟨ka, kt, ke, hkp⟩ := kafkaParse_total_aux env.kafkaURLParse
  simp only [mainTrace, startupTrace, hkp, h1, h2]
  cases ke <;>
    cases hc : (createConsumer ka kt env.newConsumerErr env.partitionErr).consumer <;>
    simp

/-- C6: if the couchbase connection fails at startup, `main` panics: the
trace ends in a panic before any handler is registered, any consuming
starts, or the server listens; and the couchbase connection is attempted
exactly once. -/
theorem couchbase_failure_fatal (env : MainEnv) (ce : String)
    (h : env.cbConnectErr = some ce) :
    .panicAction ("error connecting to couchbase: " ++ ce) ∈ mainTrace env ∧
    mentionsServing (mainTrace env) = false ∧
    hasAbort (mainTrace env) = true ∧
    countConnectCB (mainTrace env) = 1 := by
  obtain ⟨ka, kt, ke, hkp⟩ := kafkaParse_total_aux env.kafkaURLParse
  simp only [mainTrace, hkp, h]
  cases ke <;> simp [mentionsServing, hasAbort, countConnectCB]

/-- Witness environment: couchbase down, everything else fine. -/
def envCBDown : MainEnv :=
  ⟨.ok ⟨"localhost:9092", "/events"⟩, some "bucket not found", none, none,
   none, none⟩

/-- Witness for C6 at a concrete environment with couchbase down. -/
theorem couchbase_failure_fatal_witness :
    mentionsServing (mainTrace envCBDown) = false ∧
    hasAbort (mainTrace envCBDown) = true ∧
    countConnectCB (mainTrace envCBDown) = 1 :=
  ⟨(couchbase_failure_fatal envCBDown "bucket not found" rfl).2.1,
   (couchbase_failure_fatal envCBDown "bucket not found" rfl).2.2.1,
   (couchbase_failure_fatal envCBDown "bucket not found" rfl).2.2.2⟩

/-- C2: the batching policy handed to `service.NewConnectionManager` is
fixed: in every run the connection manager is constructed at most once, and
any construction in the trace carries exactly
`maxBatchSize = 100`, `minBatchSize = 1`, `batchInterval = 2000`,
`truncateSize = 1`. -/
theorem connectionManager_config_fixed (env : MainEnv) :
    countNewCM (mainTrace env) ≤ 1 ∧
    maxBatchSize = 100 ∧ minBatchSize = 1 ∧ batchInterval = 2000 ∧
    truncateSize = 1 ∧
    ∀ a b c d, .newConnectionManager a b c d ∈ mainTrace env →
      a = 100 ∧ b = 1 ∧ c = 2000 ∧ d = 1 := by
  obtain ⟨ka, kt, ke, hkp⟩ := kafkaParse_total_aux env.kafkaURLParse
  refine ⟨?_, rfl, rfl, rfl, rfl, ?_⟩ <;>
  · simp only [mainTrace, hkp]
    cases ke <;> cases h1 : env.cbConnectErr <;>
      cases hc : (createConsumer ka kt env.newConsumerErr env.partitionErr).consumer <;>
      cases h2 : env.influxClientErr <;>
      cases h3 : env.serverShutdownErr <;>
      simp [countNewCM, servingActions, shutdownSeq, maxBatchSize,
        minBatchSize, batchInterval, truncateSize]

/-- Witness environment: everything up. -/
def envAllUp : MainEnv :=
  ⟨.ok ⟨"localhost:9092", "/events"⟩, none, none, none, none, none⟩

/-- Witness for C2 at a concrete environment where the connection manager is
constructed. -/
theorem connectionManager_config_fixed_witness :
    (100 : Nat) = 100 ∧ (1 : Nat) = 1 ∧ (2000 : Nat) = 2000 ∧ (1 : Nat) = 1 :=
  (connectionManager_config_fixed envAllUp).2.2.2.2.2 100 1 2000 1 (by decide)

/-- C7: an interrupt or SIGTERM cancels the process context (only those two
signals are notified, and the handler goroutine cancels on receipt); the
trace then runs the shutdown sequence, whose server shutdown carries the
5-second grace bound; a shutdown error (such as the grace context timing
out) is logged, and the bucket, consumer and influx client are released
afterwards in the same sequence. -/
theorem signal_shutdown_bounded (env : MainEnv)
    (h1 : env.cbConnectErr = none) (h2 : env.influxClientErr = none) :
    signalCancels .interrupt = true ∧ signalCancels .sigterm = true ∧
    shutdownGraceSeconds = 5 ∧
    mainTrace env = startupTrace env ++ shutdownSeq env.serverShutdownErr ∧
    .serverShutdown shutdownGraceSeconds ∈ shutdownSeq env.serverShutdownErr ∧
    (∀ e, env.serverShutdownErr = some e →
      .logMsg ("HTTP server Shutdown: " ++ e) ∈
        shutdownSeq env.serverShutdownErr) ∧
    .closeBucket ∈ shutdownSeq env.serverShutdownErr ∧
    .closeConsumer ∈ shutdownSeq env.serverShutdownErr ∧
    .closeInflux ∈ shutdownSeq env.serverShutdownErr := by
  refine ⟨rfl, rfl, rfl, mainTrace_split env h1 h2, ?_, ?_, ?_, ?_, ?_⟩ <;>
    cases hse : env.serverShutdownErr <;> simp [shutdownSeq]

/-- Witness environment: a graceful run whose server shutdown times out. -/
def envGraceful : MainEnv :=
  ⟨.ok ⟨"localhost:9092", "/events"⟩, none, none, none, none,
   some "context deadline exceeded"⟩

/-- Witness for C7 at a concrete environment whose shutdown errors. -/
theorem signal_shutdown_bounded_witness :
    .closeBucket ∈ shutdownSeq envGraceful.serverShutdownErr ∧
    .logMsg ("HTTP server Shutdown: " ++ "context deadline exceeded") ∈
      shutdownSeq envGraceful.serverShutdownErr :=
  ⟨(signal_shutdown_bounded envGraceful rfl rfl).2.2.2.2.2.2.1,
   (signal_shutdown_bounded envGraceful rfl rfl).2.2.2.2.2.1
      "context deadline exceeded" rfl⟩

/-- C10: the shutdown steps are strictly ordered — the startup part of the
trace contains no server-shutdown or close step, and within the shutdown
sequence the server shutdown (with its grace bound) is the first step, with
the bucket, consumer and influx closes strictly after it. -/
theorem shutdown_precedes_closes (env : MainEnv)
    (h1 : env.cbConnectErr = none) (h2 : env.influxClientErr = none) :
    mainTrace env = startupTrace env ++ shutdownSeq env.serverShutdownErr ∧
    mentionsShutdownStep (startupTrace env) = false ∧
    ∃ rest, shutdownSeq env.serverShutdownErr =
        .serverShutdown shutdownGraceSeconds :: rest ∧
      .closeBucket ∈ rest ∧ .closeConsumer ∈ rest ∧ .closeInflux ∈ rest := by
  refine ⟨mainTrace_split env h1 h2, ?_, ?_⟩
  · obtain ⟨ka, kt, ke, hkp⟩ := kafkaParse_total_aux env.kafkaURLParse
    simp only [startupTrace, hkp]
    cases ke <;>
      cases hc : (createConsumer ka kt env.newConsumerErr env.partitionErr).consumer <;>
      simp [mentionsShutdownStep, servingActions]
  · cases hse : env.serverShutdownErr with
    | none =>
      refine ⟨[.logMsg "Server Shutdown", .closeBucket, .closeConsumer,
               .closeInflux, .logMsg "Internal Services Closed",
               .cancelServerCtx, .logMsg "Service Closed"],
              by simp [shutdownSeq], by simp, by simp, by simp⟩
    | some e =>
      refine ⟨[.logMsg ("HTTP server Shutdown: " ++ e),
               .logMsg "Server Shutdown", .closeBucket, .closeConsumer,
               .closeInflux, .logMsg "Internal Services Closed",
               .cancelServerCtx, .logMsg "Service Closed"],
              by simp [shutdownSeq], by simp, by simp, by simp⟩

/-- Witness for C10 at a concrete environment. -/
theorem shutdown_precedes_closes_witness :
    mentionsShutdownStep (startupTrace envAllUp) = false :=
  (shutdown_precedes_closes envAllUp rfl rfl).2.1

/-- Environment for the kafka-failure run: `KAFKA_CONN` is empty, so
`url.Parse` succeeds with empty host and path, `kafkaParse` errors, and the
sarama connection to the empty broker address fails. -/
def envKafkaDown : MainEnv :=
  ⟨.ok ⟨"", ""⟩, none,
   some "kafka: client has run out of available brokers to talk to",
   none, none, none⟩

/-- C1 (counter-evidence): with an unresolvable `KAFKA_CONN` — `kafkaParse`
errors and the sarama connection fails — the process does not abort: no
panic occurs, and the trace still registers both handlers, starts
consuming, and listens on `:8000`.  The source merely logs these errors
(`main.go` lines 34-36 and 53-55), unlike the couchbase and influx paths,
which panic. -/
theorem main_serves_despite_kafka_failure :
    (kafkaParse envKafkaDown.kafkaURLParse).errMsg.isSome = true ∧
    (createConsumer (kafkaParse envKafkaDown.kafkaURLParse).addressOf
        (kafkaParse envKafkaDown.kafkaURLParse).topicOf
        envKafkaDown.newConsumerErr envKafkaDown.partitionErr).consumer.isOk
      = false ∧
    hasAbort (mainTrace envKafkaDown) = false ∧
    mentionsServing (mainTrace envKafkaDown) = true ∧
    .registerHandler "/receive/ws" ∈ mainTrace envKafkaDown ∧
    .registerHandler "/receive/ajax" ∈ mainTrace envKafkaDown ∧
    .startConsuming ∈ mainTrace envKafkaDown ∧
    .listen addr ∈ mainTrace envKafkaDown := by
  decide

/-- Witness for C5 at a concrete failing parse. -/
theorem kafkaParse_error_iff_witness :
    ∃ a t e, kafkaParse (.error "parse failure") = .result a t e ∧
      (e.isSome = true ↔
        (∃ m, (.error "parse failure" : Except String GoURL) = .error m) ∨
        (∃ u, (.error "parse failure" : Except String GoURL) = .ok u ∧
          (u.host = "" ∨ u.path = "" ∨ u.path = "/"))) ∧
      (e.isSome = true → a = "" ∧ t = "") :=
  kafkaParse_error_iff (.error "parse failure")
